import Mathlib

/-!
Shallow embedding of the advanced-search mapping-criteria view-model
(src/ggrc/assets/javascripts/components/advanced-search/advanced-search-mapping-criteria.js)
together with proofs of the specification claims about it.

JavaScript values are embedded as follows: a possibly-absent string field is
`Option String` (with `none` for `undefined`); JS truthiness of such a field is
`truthyStr` (`undefined` and `""` are falsy); a computation that can throw a
TypeError is embedded as an `Option`-valued function returning `none` at the
throwing input.  The external collaborators `GGRC.Mappings` and `CMS.Models`
are passed in explicitly as a `Registry`.
-/

namespace MappingCriteria

/-- JS truthiness of a possibly-absent string: `undefined` and `""` are falsy,
every other string is truthy. -/
def truthyStr : Option String → Bool
  | none => false
  | some s => !(s == "")

/-- JS string coercion of a possibly-absent string: `undefined` coerces to the
string "undefined" (as in property access with an undefined key and in string
concatenation). -/
def jsStr : Option String → String
  | none => "undefined"
  | some s => s

/-- Modelled from the spec: the filter sub-structure attached to a criteria
node.  `GGRC.Utils.AdvancedSearch.create.attribute()` is not under src/; the
spec describes it only as "a default empty attribute filter", so it is one
distinguished constructor `defaultAttribute`, and `other` stands for any other
filter value a record may carry. -/
inductive Filter where
  | defaultAttribute
  | other (tag : Nat)
deriving DecidableEq

/-- Modelled from the spec: the nested criteria node attached under `mappedTo`.
`GGRC.Utils.AdvancedSearch.create.mappingCriteria()` is not under src/; the
spec describes it only as "a new nested Criteria node (with its own default
filter)", so it is one distinguished constructor `defaultNode`, and `other`
stands for any other node value a record may carry. -/
inductive MappedNode where
  | defaultNode
  | other (tag : Nat)
deriving DecidableEq

/-- A model-type entry of the global `CMS.Models` registry, restricted to the
two fields this component reads. -/
structure CmsModel where
  model_singular : Option String
  title_singular : Option String
deriving DecidableEq

/-- A criteria record (a `can.Map` in the source): `objectName` is the selected
target type identifier, `filter` the attached filter expression, `mappedTo`
the optional relevance sub-clause. -/
structure Criteria where
  objectName : Option String
  filter : Option Filter
  mappedTo : Option MappedNode
deriving DecidableEq

/-- The own observable fields of the view-model, as declared in the source. -/
structure ComponentState where
  criteria : Criteria
  modelName : Option String
  root : Bool
  availableAttributes : List String
deriving DecidableEq

/-- The external collaborators: `canonicalMappings mn` is the key list of
`GGRC.Mappings.get_canonical_mappings_for(mn)` (the result of `_.keys`), and
`models k` is `CMS.Models[k]` (with `none` for an absent entry). -/
structure Registry where
  canonicalMappings : Option String → List String
  models : String → Option CmsModel

/-- The `set` function of the `criteria` define-property: if the incoming
record has no (truthy) `filter`, attach the default attribute filter;
return the record. -/
def criteriaSet (c : Criteria) : Criteria :=
  if c.filter.isSome then c
  else { c with filter := some Filter.defaultAttribute }

/-- The comparator underlying the underscore call `_.sortBy(xs, "model_singular")`:
keys are compared with JS `<`, and an `undefined` key sorts after every
defined key. -/
def jsKeyLE : Option String → Option String → Bool
  | _, none => true
  | none, some _ => false
  | some a, some b => decide (a ≤ b)

/-- The pure list computation inside `mappingTypes()`:
`_.filter(_.sortBy(_.compact(_.map(_.keys(mappings), k => CMS.Models[k])),
"model_singular"), m => m.model_singular && m.title_singular)`. -/
def computeTypes (reg : Registry) (modelName : Option String) : List CmsModel :=
  (((reg.canonicalMappings modelName).filterMap reg.models).mergeSort
      fun a b => jsKeyLE a.model_singular b.model_singular).filter
    fun m => truthyStr m.model_singular && truthyStr m.title_singular

/-- `mappingTypes()`: computes the filtered sorted type list and, when
`criteria.objectName` is falsy, writes the `model_singular` of the first entry
into it.  `_.first(types)` on an empty list is `undefined`, so the
subsequent `.model_singular` access throws a TypeError; that fault is the
`none` result. -/
def mappingTypes (reg : Registry) (st : ComponentState) :
    Option (List CmsModel × ComponentState) :=
  let types := computeTypes reg st.modelName
  if truthyStr st.criteria.objectName then
    some (types, st)
  else
    match types.head? with
    | none => none
    | some t =>
        some (types,
          { st with criteria := { st.criteria with objectName := t.model_singular } })

/-- `title()`: the fixed label for the root node, otherwise
`"Where " + CMS.Models[modelName].title_singular + " is mapped to"`.
A missing `CMS.Models` entry makes the `.title_singular` access throw, which
is the `none` result. -/
def title (reg : Registry) (st : ComponentState) : Option String :=
  if st.root then some "Mapped To"
  else
    match reg.models (jsStr st.modelName) with
    | none => none
    | some m => some ("Where " ++ jsStr m.title_singular ++ " is mapped to")

/-- Name avoids clashing with library functions; the source method is called
remove.  It dispatches the event "remove" and touches no local field: the
result is the unchanged state paired with the list of dispatched event
names. -/
def removeSelf (st : ComponentState) : ComponentState × List String :=
  (st, ["remove"])

/-- `addRelevant()`: sets `criteria.mappedTo` to a freshly created default
mapping-criteria node. -/
def addRelevant (c : Criteria) : Criteria :=
  { c with mappedTo := some MappedNode.defaultNode }

/-- `removeRelevant()`: `removeAttr("criteria.mappedTo")` deletes the field. -/
def removeRelevant (c : Criteria) : Criteria :=
  { c with mappedTo := none }

/-- A sample `CMS.Models` entry for the Program type, used to instantiate the
claims at concrete inputs. -/
def programModel : CmsModel :=
  { model_singular := some "Program", title_singular := some "Program" }

/-- A sample `CMS.Models` entry for the Audit type. -/
def auditModel : CmsModel :=
  { model_singular := some "Audit", title_singular := some "Audit" }

/-- A sample `CMS.Models` entry whose display title is absent, so
`mappingTypes()` must filter it out. -/
def draftModel : CmsModel :=
  { model_singular := some "Draft", title_singular := none }

/-- A sample registry: the Program type maps canonically to the keys Audit,
Draft, Control and Program; Control has no `CMS.Models` entry (compacted
away) and Draft has no display title (filtered away). -/
def sampleRegistry : Registry where
  canonicalMappings := fun mn =>
    if mn == some "Program" then ["Audit", "Draft", "Control", "Program"] else []
  models := fun k =>
    if k == "Program" then some programModel
    else if k == "Audit" then some auditModel
    else if k == "Draft" then some draftModel
    else none

/-- A sample criteria record carrying no field at all. -/
def emptyCriteria : Criteria :=
  { objectName := none, filter := none, mappedTo := none }

/-- A sample criteria record already carrying a non-default filter. -/
def otherFilterCriteria : Criteria :=
  { objectName := none, filter := some (Filter.other 7), mappedTo := none }

/-- A sample criteria record already carrying a relevance sub-clause. -/
def withMappedCriteria : Criteria :=
  { objectName := none, filter := none, mappedTo := some (MappedNode.other 3) }

end MappingCriteria

namespace MappingCriteria

theorem truthyStr_exists {o : Option String} (h : truthyStr o = true) :
    ∃ s : String, o = some s ∧ s ≠ "" := by
  cases o with
  | none => exact absurd h (by simp [truthyStr])
  | some s =>
    refine ⟨s, rfl, ?_⟩
    simpa [truthyStr] using h

theorem jsKeyLE_trans (a b c : Option String)
    (h1 : jsKeyLE a b = true) (h2 : jsKeyLE b c = true) : jsKeyLE a c = true := by
  cases a with
  | none =>
    cases b with
    | none => exact h2
    | some sb =>
      cases c with
      | none => rfl
      | some sc => exact absurd h1 (by simp [jsKeyLE])
  | some sa =>
    cases b with
    | none =>
      cases c with
      | none => rfl
      | some sc => exact absurd h2 (by simp [jsKeyLE])
    | some sb =>
      cases c with
      | none => rfl
      | some sc =>
        simp only [jsKeyLE, decide_eq_true_eq] at h1 h2 ⊢
        exact le_trans h1 h2

theorem jsKeyLE_total (a b : Option String) :
    (jsKeyLE a b || jsKeyLE b a) = true := by
  cases a with
  | none => cases b <;> simp [jsKeyLE]
  | some sa =>
    cases b with
    | none => simp [jsKeyLE]
    | some sb =>
      simp only [jsKeyLE, Bool.or_eq_true, decide_eq_true_eq]
      exact le_total sa sb

theorem computeTypes_pairwise (reg : Registry) (mn : Option String) :
    (computeTypes reg mn).Pairwise
      fun a b => jsKeyLE a.model_singular b.model_singular = true := by
  rw [computeTypes]
  refine List.Pairwise.sublist (List.filter_sublist _) ?_
  exact @List.sorted_mergeSort CmsModel
    (fun a b => jsKeyLE a.model_singular b.model_singular)
    (fun a b c hab hbc => jsKeyLE_trans _ _ _ hab hbc)
    (fun a b => jsKeyLE_total _ _)
    ((reg.canonicalMappings mn).filterMap reg.models)

end MappingCriteria

namespace MappingCriteria

theorem computeTypes_mem (reg : Registry) (mn : Option String) {m : CmsModel}
    (hm : m ∈ computeTypes reg mn) :
    truthyStr m.model_singular = true ∧ truthyStr m.title_singular = true := by
  simp only [computeTypes] at hm
  have hp := (List.mem_filter.mp hm).2
  exact And.intro (Bool.and_eq_true_iff.mp hp).1 (Bool.and_eq_true_iff.mp hp).2

/-- Claim C1: the spec asserts that when the computed type list is empty and
`criteria.objectName` is unset, `mappingTypes()` leaves `objectName` unset and
raises no fault.  The code instead reads `.model_singular` off
`_.first(types)`, which is `undefined` on an empty list, so the call throws a
TypeError — embedded as the `none` result — evaluated here at a registry with
no canonical mappings and a criteria record with `objectName` unset. -/
theorem mappingTypes_empty_list_faults :
    mappingTypes
      { canonicalMappings := fun _ => [], models := fun _ => none }
      { criteria := emptyCriteria, modelName := some "Program", root := false,
        availableAttributes := [] } = none := by
  simp [mappingTypes, computeTypes, truthyStr, emptyCriteria]

/-- Claim C2: a criteria record without a `filter` field passed through the
criteria setter comes back with the default attribute filter attached to
`filter`, with `objectName` and `mappedTo` untouched; the setter is a total
function, so it never fails. -/
theorem criteriaSet_attaches_default (c : Criteria) (h : c.filter = none) :
    criteriaSet c = { c with filter := some Filter.defaultAttribute } ∧
    (criteriaSet c).objectName = c.objectName ∧
    (criteriaSet c).mappedTo = c.mappedTo := by
  refine ⟨?_, ?_, ?_⟩ <;> simp [criteriaSet, h]

/-- Witness for claim C2 at the concrete record with every field absent. -/
theorem criteriaSet_attaches_default_witness :
    criteriaSet emptyCriteria =
      { emptyCriteria with filter := some Filter.defaultAttribute } ∧
    (criteriaSet emptyCriteria).objectName = emptyCriteria.objectName ∧
    (criteriaSet emptyCriteria).mappedTo = emptyCriteria.mappedTo :=
  criteriaSet_attaches_default emptyCriteria rfl

/-- Claim C3: a criteria record that already has a `filter` keeps it unchanged
through the criteria setter, and running the setter twice yields the same
record as running it once. -/
theorem criteriaSet_preserves_filter (c : Criteria) (f : Filter)
    (h : c.filter = some f) :
    (criteriaSet c).filter = some f ∧
    criteriaSet (criteriaSet c) = criteriaSet c := by
  refine ⟨?_, ?_⟩ <;> simp [criteriaSet, h]

/-- Witness for claim C3 at a concrete record carrying a non-default filter. -/
theorem criteriaSet_preserves_filter_witness :
    (criteriaSet otherFilterCriteria).filter = some (Filter.other 7) ∧
    criteriaSet (criteriaSet otherFilterCriteria) = criteriaSet otherFilterCriteria :=
  criteriaSet_preserves_filter otherFilterCriteria (Filter.other 7) rfl

/-- Claim C8: `remove()` dispatches exactly the event "remove" and leaves every
local view-model field (criteria, modelName, root, availableAttributes)
unchanged. -/
theorem removeSelf_emits_remove_only (st : ComponentState) :
    (removeSelf st).1 = st ∧
    (removeSelf st).1.criteria = st.criteria ∧
    (removeSelf st).1.modelName = st.modelName ∧
    (removeSelf st).1.root = st.root ∧
    (removeSelf st).1.availableAttributes = st.availableAttributes ∧
    (removeSelf st).2 = ["remove"] :=
  ⟨rfl, rfl, rfl, rfl, rfl, rfl⟩

/-- Claim C9: on a record without `mappedTo`, `removeRelevant()` succeeds (it
is a total function) and changes nothing; hence applying it twice equals
applying it once. -/
theorem removeRelevant_noop_idempotent (c : Criteria) (h : c.mappedTo = none) :
    removeRelevant c = c ∧
    removeRelevant (removeRelevant c) = removeRelevant c := by
  cases c with
  | mk o f m =>
    have hm : m = none := h
    subst hm
    exact ⟨rfl, rfl⟩

/-- Witness for claim C9 at the concrete record with every field absent. -/
theorem removeRelevant_noop_idempotent_witness :
    removeRelevant emptyCriteria = emptyCriteria ∧
    removeRelevant (removeRelevant emptyCriteria) = removeRelevant emptyCriteria :=
  removeRelevant_noop_idempotent emptyCriteria rfl

/-- Claim C10: `addRelevant()` always writes a freshly created default
mapping-criteria node into `mappedTo`, discarding whatever was there, and
touches no other field. -/
theorem addRelevant_overwrites_mappedTo (c : Criteria) :
    (addRelevant c).mappedTo = some MappedNode.defaultNode ∧
    (addRelevant c).objectName = c.objectName ∧
    (addRelevant c).filter = c.filter :=
  ⟨rfl, rfl, rfl⟩

end MappingCriteria

namespace MappingCriteria

/-- Claim C4: for every registry state and every model name, the list computed
by `mappingTypes()` contains only model types with a truthy (present,
non-empty) singular identifier and a truthy singular title, and is sorted in
ascending order of singular identifier. -/
theorem computeTypes_filtered_sorted (reg : Registry) (mn : Option String) :
    (∀ m ∈ computeTypes reg mn,
        truthyStr m.model_singular = true ∧ truthyStr m.title_singular = true) ∧
    (computeTypes reg mn).Pairwise
      fun a b => a.model_singular.getD "" ≤ b.model_singular.getD "" := by
  constructor
  · intro m hm
    exact computeTypes_mem reg mn hm
  · have hpw := computeTypes_pairwise reg mn
    refine hpw.imp_of_mem ?_
    intro a b ha hb hab
    obtain ⟨sa, hsa, -⟩ := truthyStr_exists (computeTypes_mem reg mn ha).1
    obtain ⟨sb, hsb, -⟩ := truthyStr_exists (computeTypes_mem reg mn hb).1
    rw [hsa, hsb] at hab ⊢
    simpa [jsKeyLE] using hab

/-- Witness for claim C4: the sortedness part instantiated at the sample
registry. -/
theorem computeTypes_filtered_sorted_witness :
    (computeTypes sampleRegistry (some "Program")).Pairwise
      fun a b => a.model_singular.getD "" ≤ b.model_singular.getD "" :=
  (computeTypes_filtered_sorted sampleRegistry (some "Program")).2

theorem computeTypes_sample :
    computeTypes sampleRegistry (some "Program") = [auditModel, draftModel, programModel].filter
      fun m => truthyStr m.model_singular && truthyStr m.title_singular := by
  have hfm : (sampleRegistry.canonicalMappings (some "Program")).filterMap
      sampleRegistry.models = [auditModel, draftModel, programModel] := by
    rfl
  have hsorted : ([auditModel, draftModel, programModel] : List CmsModel).Pairwise
      fun a b => jsKeyLE a.model_singular b.model_singular = true := by
    simp [List.pairwise_cons, auditModel, draftModel, programModel, jsKeyLE]
    decide
  rw [computeTypes, hfm, List.mergeSort_of_sorted hsorted]

theorem computeTypes_sample_eval :
    computeTypes sampleRegistry (some "Program") = [auditModel, programModel] := by
  rw [computeTypes_sample]
  decide

/-- Claim C5: when `criteria.objectName` is falsy and the computed list is
non-empty (its head exists), `mappingTypes()` returns that list and writes the
singular identifier of its first entry into `criteria.objectName`, leaving the
other fields alone. -/
theorem mappingTypes_sets_default_objectName (reg : Registry)
    (st : ComponentState) (h1 : truthyStr st.criteria.objectName = false)
    (t : CmsModel) (h2 : (computeTypes reg st.modelName).head? = some t) :
    mappingTypes reg st =
      some (computeTypes reg st.modelName,
        { st with criteria := { st.criteria with objectName := t.model_singular } }) := by
  simp [mappingTypes, h1, h2]

/-- Witness for claim C5: at the sample registry the computed list is
`[auditModel, programModel]`, and the call fills in `objectName := "Audit"`. -/
theorem mappingTypes_sets_default_objectName_witness :
    mappingTypes sampleRegistry
      { criteria := emptyCriteria, modelName := some "Program", root := false,
        availableAttributes := [] } =
      some ([auditModel, programModel],
        { criteria := { objectName := some "Audit", filter := none, mappedTo := none },
          modelName := some "Program", root := false, availableAttributes := [] }) := by
  rw [← computeTypes_sample_eval]
  exact mappingTypes_sets_default_objectName sampleRegistry
    { criteria := emptyCriteria, modelName := some "Program", root := false,
      availableAttributes := [] }
    rfl auditModel (by rw [computeTypes_sample_eval]; rfl)

/-- Counterexample to claim C6 as stated: on a record that already carries a
`mappedTo` sub-clause, `addRelevant()` followed by `removeRelevant()` deletes
the field, so the record is not identical to its state before the calls. -/
theorem addRemoveRelevant_not_identity :
    removeRelevant (addRelevant withMappedCriteria) ≠ withMappedCriteria := by
  decide

/-- Claim C6 (amended): after `addRelevant()` then `removeRelevant()` the
record has no `mappedTo` field; and when the record had no `mappedTo` field to
begin with — the only records the component itself produces before a relevance
clause is added — the pair of calls restores the record exactly. -/
theorem addRemoveRelevant_roundtrip (c : Criteria) :
    (removeRelevant (addRelevant c)).mappedTo = none ∧
    (c.mappedTo = none → removeRelevant (addRelevant c) = c) := by
  refine ⟨rfl, ?_⟩
  intro h
  cases c with
  | mk o f m =>
    have hm : m = none := h
    subst hm
    rfl

/-- Witness for claim C6 at the concrete record with every field absent. -/
theorem addRemoveRelevant_roundtrip_witness :
    (removeRelevant (addRelevant emptyCriteria)).mappedTo = none ∧
    removeRelevant (addRelevant emptyCriteria) = emptyCriteria :=
  ⟨(addRemoveRelevant_roundtrip emptyCriteria).1,
   (addRemoveRelevant_roundtrip emptyCriteria).2 rfl⟩

/-- Claim C7: `title()` returns the fixed label "Mapped To" whenever `root` is
true, regardless of `modelName`; when `root` is false and the model registry
has an entry for the current model name, it returns the interpolated sentence
around that entry of title_singular; in particular, with modelName "Program"
and root false it returns "Where Program is mapped to". -/
theorem title_root_and_interpolated (reg : Registry) (st : ComponentState) :
    (st.root = true → title reg st = some "Mapped To") ∧
    (∀ m : CmsModel, st.root = false → reg.models (jsStr st.modelName) = some m →
      title reg st = some ("Where " ++ jsStr m.title_singular ++ " is mapped to")) ∧
    title sampleRegistry
      { criteria := emptyCriteria, modelName := some "Program", root := false,
        availableAttributes := [] } = some "Where Program is mapped to" := by
  refine ⟨?_, ?_, ?_⟩
  · intro h
    simp [title, h]
  · intro m hr hm
    simp [title, hr, hm]
  · decide

/-- Witness for claim C7: both branches applied at concrete states over the
sample registry. -/
theorem title_root_and_interpolated_witness :
    title sampleRegistry
      { criteria := emptyCriteria, modelName := some "Program", root := true,
        availableAttributes := [] } = some "Mapped To" ∧
    title sampleRegistry
      { criteria := emptyCriteria, modelName := some "Program", root := false,
        availableAttributes := [] } =
      some ("Where " ++ jsStr programModel.title_singular ++ " is mapped to") :=
  ⟨(title_root_and_interpolated sampleRegistry
      { criteria := emptyCriteria, modelName := some "Program", root := true,
        availableAttributes := [] }).1 rfl,
   (title_root_and_interpolated sampleRegistry
      { criteria := emptyCriteria, modelName := some "Program", root := false,
        availableAttributes := [] }).2.1 programModel rfl rfl⟩

end MappingCriteria
